import Mathlib

/-!
# Verification of the Sport_card harvest-filter-enrich-persist pipeline

Shallow embedding of the two marketplace harvesters (`scrape_vinted.py`,
`scrape_catawiki.py`) and the combined scheduler (`run_both_scrapers.py`).

Network calls, browser rendering and the document store are modelled as
explicit inputs (oracles / state values); machine floats are modelled as
rationals; Python `dict` documents become Lean structures with the same
field names.
-/

namespace SportCard

/-! ## Title-plausibility year filter

`scrape_vinted.title_has_year` tests `re.search(r"\b(19[7-9]\d|20[0-2]\d|2030)\b", title)`;
the Catawiki harvester (`scrape_category`) tests `re.search(r"\b(19[5-9]\d|20[0-4]\d)\b", title)`.
We model the regex `\b` word boundary over ASCII word characters
(Python's `\w` restricted to ASCII; all titles in the spec's examples are ASCII). -/

def isWordChar (c : Char) : Bool := c.isAlphanum || c == '_'

/-- `\b` holds before the match: previous character (if any) is not a word char. -/
def boundaryOk (prev : Option Char) : Bool :=
  match prev with
  | none => true
  | some p => !isWordChar p

/-- `\b` holds after the match: next character (if any) is not a word char. -/
def tailBoundaryOk : List Char → Bool
  | [] => true
  | e :: _ => !isWordChar e

/-- The alternation `19[7-9]\d|20[0-2]\d|2030` from `scrape_vinted.title_has_year`. -/
def vintedYearMatch (a b c d : Char) : Bool :=
  (a == '1' && b == '9' && decide ('7' ≤ c) && decide (c ≤ '9') && d.isDigit) ||
  (a == '2' && b == '0' && decide ('0' ≤ c) && decide (c ≤ '2') && d.isDigit) ||
  (a == '2' && b == '0' && c == '3' && d == '0')

/-- The alternation `19[5-9]\d|20[0-4]\d` from `scrape_catawiki.scrape_category`. -/
def catawikiYearMatch (a b c d : Char) : Bool :=
  (a == '1' && b == '9' && decide ('5' ≤ c) && decide (c ≤ '9') && d.isDigit) ||
  (a == '2' && b == '0' && decide ('0' ≤ c) && decide (c ≤ '4') && d.isDigit)

/-- `re.search` over the title: try every position; the 4-char group must be
delimited by word boundaries on both sides. -/
def scanYearTok (m4 : Char → Char → Char → Char → Bool) : Option Char → List Char → Bool
  | _, [] => false
  | prev, a :: rest =>
      (match rest with
       | b :: c :: d :: rest2 =>
          m4 a b c d && boundaryOk prev && tailBoundaryOk rest2
       | _ => false)
      || scanYearTok m4 (some a) rest

/-- `scrape_vinted.title_has_year` (lines 78-82).  An empty title is falsy in
Python and returns `False`; the scan of an empty char list is `false` too. -/
def title_has_year (title : String) : Bool :=
  scanYearTok vintedYearMatch none title.data

/-- The inline year filter of `scrape_catawiki.scrape_category` (line 422). -/
def catawiki_title_has_year (title : String) : Bool :=
  scanYearTok catawikiYearMatch none title.data

/-- ASCII digit character of `d < 10`. -/
def digitChar (d : Nat) : Char := Char.ofNat (48 + d)

/-- The 4 digit characters of a 4-digit number, most significant first. -/
def yearChars (n : Nat) : List Char :=
  [digitChar (n / 1000 % 10), digitChar (n / 100 % 10), digitChar (n / 10 % 10), digitChar (n % 10)]

/-- A title consisting of exactly one 4-digit token. -/
def yearTitle (n : Nat) : String := String.mk (yearChars n)

/-! Digit-level characterisation of the two year regexes. -/

lemma digit_tests : ∀ a, a < 10 →
    ((digitChar a == '1') = decide (a = 1)) ∧
    ((digitChar a == '9') = decide (a = 9)) ∧
    ((digitChar a == '2') = decide (a = 2)) ∧
    ((digitChar a == '0') = decide (a = 0)) ∧
    ((digitChar a == '3') = decide (a = 3)) ∧
    (decide ('7' ≤ digitChar a) = decide (7 ≤ a)) ∧
    (decide ('5' ≤ digitChar a) = decide (5 ≤ a)) ∧
    (decide ('0' ≤ digitChar a) = true) ∧
    (decide (digitChar a ≤ '9') = true) ∧
    (decide (digitChar a ≤ '2') = decide (a ≤ 2)) ∧
    (decide (digitChar a ≤ '4') = decide (a ≤ 4)) ∧
    ((digitChar a).isDigit = true) := by decide

lemma scan_yearTitle (m4 : Char → Char → Char → Char → Bool) (n : Nat) :
    scanYearTok m4 none (yearTitle n).data =
      m4 (digitChar (n / 1000 % 10)) (digitChar (n / 100 % 10))
         (digitChar (n / 10 % 10)) (digitChar (n % 10)) := by
  simp [yearTitle, yearChars, scanYearTok, boundaryOk, tailBoundaryOk]

lemma title_has_year_yearTitle (n : Nat) (h1 : 1000 ≤ n) (h2 : n ≤ 9999) :
    title_has_year (yearTitle n) = true ↔ (1970 ≤ n ∧ n ≤ 2030) := by
  have ha : n / 1000 % 10 < 10 := Nat.mod_lt _ (by norm_num)
  have hb : n / 100 % 10 < 10 := Nat.mod_lt _ (by norm_num)
  have hc : n / 10 % 10 < 10 := Nat.mod_lt _ (by norm_num)
  have hd : n % 10 < 10 := Nat.mod_lt _ (by norm_num)
  have Ha := digit_tests _ ha
  have Hb := digit_tests _ hb
  have Hc := digit_tests _ hc
  have Hd := digit_tests _ hd
  rw [title_has_year, scan_yearTitle, vintedYearMatch,
      Ha.1, Hb.2.1, Hc.2.2.2.2.2.1, Hc.2.2.2.2.2.2.2.2.1, Hd.2.2.2.2.2.2.2.2.2.2.2,
      Ha.2.2.1, Hb.2.2.2.1, Hc.2.2.2.2.2.2.2.1, Hc.2.2.2.2.2.2.2.2.2.1,
      Hc.2.2.2.2.1, Hd.2.2.2.1]
  simp only [Bool.and_true, Bool.true_and, Bool.or_eq_true, Bool.and_eq_true,
    decide_eq_true_eq]
  omega

lemma catawiki_title_has_year_yearTitle (n : Nat) (h1 : 1000 ≤ n) (h2 : n ≤ 9999) :
    catawiki_title_has_year (yearTitle n) = true ↔ (1950 ≤ n ∧ n ≤ 2049) := by
  have ha : n / 1000 % 10 < 10 := Nat.mod_lt _ (by norm_num)
  have hb : n / 100 % 10 < 10 := Nat.mod_lt _ (by norm_num)
  have hc : n / 10 % 10 < 10 := Nat.mod_lt _ (by norm_num)
  have hd : n % 10 < 10 := Nat.mod_lt _ (by norm_num)
  have Ha := digit_tests _ ha
  have Hb := digit_tests _ hb
  have Hc := digit_tests _ hc
  have Hd := digit_tests _ hd
  rw [catawiki_title_has_year, scan_yearTitle, catawikiYearMatch,
      Ha.1, Hb.2.1, Hc.2.2.2.2.2.2.1, Hc.2.2.2.2.2.2.2.2.1, Hd.2.2.2.2.2.2.2.2.2.2.2,
      Ha.2.2.1, Hb.2.2.2.1, Hc.2.2.2.2.2.2.2.1, Hc.2.2.2.2.2.2.2.2.2.2.1]
  simp only [Bool.and_true, Bool.true_and, Bool.or_eq_true, Bool.and_eq_true,
    decide_eq_true_eq]
  omega

/-- If the scan accepts, the title contains four consecutive characters
matching the year pattern (the only-if direction of the filter). -/
lemma scanYearTok_true_infix (m4 : Char → Char → Char → Char → Bool) :
    ∀ (l : List Char) (prev : Option Char), scanYearTok m4 prev l = true →
      ∃ pre a b c d post, l = pre ++ a :: b :: c :: d :: post ∧ m4 a b c d = true
  | [], _, h => by exact Bool.noConfusion h
  | [_], _, h => by exact Bool.noConfusion h
  | [_, _], _, h => by exact Bool.noConfusion h
  | [_, _, _], _, h => by exact Bool.noConfusion h
  | a :: b :: c :: d :: rest2, prev, h => by
    have h' : ((m4 a b c d && boundaryOk prev && tailBoundaryOk rest2)
        || scanYearTok m4 (some a) (b :: c :: d :: rest2)) = true := h
    rw [Bool.or_eq_true] at h'
    rcases h' with h' | h'
    · simp only [Bool.and_eq_true] at h'
      exact ⟨[], a, b, c, d, rest2, rfl, h'.1.1⟩
    · obtain ⟨pre, x, y, z, w, post, hl, hm⟩ :=
        scanYearTok_true_infix m4 (b :: c :: d :: rest2) (some a) h'
      exact ⟨a :: pre, x, y, z, w, post, by rw [hl]; rfl, hm⟩

/-- C4: the title-plausibility filter accepts a listing only if its title
contains a 4-digit year token matched by the source's pattern; on 4-digit
tokens the Catawiki pattern accepts exactly 1950-2049 and the Vinted pattern
exactly 1970-2029 plus the literal 2030; a title containing "2022" passes
both filters and one whose only 4-digit token is "1899" is rejected by both. -/
theorem claim_C4_year_filter_asymmetry :
    (∀ n : Nat, 1000 ≤ n → n ≤ 9999 →
      ((catawiki_title_has_year (yearTitle n) = true ↔ (1950 ≤ n ∧ n ≤ 2049)) ∧
       (title_has_year (yearTitle n) = true ↔ ((1970 ≤ n ∧ n ≤ 2029) ∨ n = 2030)))) ∧
    (∀ t : String, title_has_year t = true →
      ∃ pre a b c d post, t.data = pre ++ a :: b :: c :: d :: post ∧
        vintedYearMatch a b c d = true) ∧
    (∀ t : String, catawiki_title_has_year t = true →
      ∃ pre a b c d post, t.data = pre ++ a :: b :: c :: d :: post ∧
        catawikiYearMatch a b c d = true) ∧
    title_has_year "2022 - Leaf - Multi-Sport Rookie" = true ∧
    catawiki_title_has_year "2022 - Leaf - Multi-Sport Rookie" = true ∧
    title_has_year "1899 Vintage Set" = false ∧
    catawiki_title_has_year "1899 Vintage Set" = false :=
  ⟨fun n h1 h2 =>
    ⟨catawiki_title_has_year_yearTitle n h1 h2,
     (title_has_year_yearTitle n h1 h2).trans (by omega)⟩,
   fun t h => scanYearTok_true_infix vintedYearMatch t.data none h,
   fun t h => scanYearTok_true_infix catawikiYearMatch t.data none h,
   by decide, by decide, by decide, by decide⟩

/-- Witness for C4 at concrete years 2022 and 1899. -/
theorem claim_C4_year_filter_asymmetry_witness :
    (catawiki_title_has_year (yearTitle 2022) = true ↔ (1950 ≤ 2022 ∧ 2022 ≤ 2049)) ∧
    (title_has_year (yearTitle 1899) = true ↔ ((1970 ≤ 1899 ∧ 1899 ≤ 2029) ∨ 1899 = 2030)) :=
  ⟨(claim_C4_year_filter_asymmetry.1 2022 (by norm_num) (by norm_num)).1,
   (claim_C4_year_filter_asymmetry.1 1899 (by norm_num) (by norm_num)).2⟩

/-! ## Price Reference Client

`search_ebay_current_listings` appears, with identical price aggregation,
in `scrape_vinted.py` (lines 166-241) and `scrape_catawiki.py` (lines
183-266); the Catawiki copy adds two per-listing fields (a fallback `url`
and a `condition`) that no aggregation step reads, so one embedding covers
both.  The HTTP layer is out of the model: the function is given the parsed
JSON body of a successful response (`ApiResponse`); a non-success response
raises in Python and is modelled as an `Except.error` of the enrichment
oracle at the call sites in the harvest pipeline.  Python floats are
modelled as rationals and Python float formatting by `showQ`. -/

/-- Python `str.strip()` with no arguments: remove leading and trailing
whitespace (kernel-computable, unlike `String.trim`). -/
def pyStrip (s : String) : String :=
  String.mk (((s.data.dropWhile Char.isWhitespace).reverse.dropWhile Char.isWhitespace).reverse)

/-- Python `s[:n]` on a string: the first `n` code points. -/
def pyTake (s : String) (n : Nat) : String := String.mk (s.data.take n)

/-- Python `s or default` on an optional string: `None` and `""` are falsy. -/
def pyOrS (s : Option String) (d : String) : String :=
  match s with
  | none => d
  | some s => if s = "" then d else s

/-- ASCII upper-casing, modelling Python `.upper()` on the ASCII currency
codes this program handles. -/
def upperChar (c : Char) : Char :=
  if 'a' ≤ c ∧ c ≤ 'z' then Char.ofNat (c.toNat - 32) else c

def upperStr (s : String) : String := String.mk (s.data.map upperChar)

/-- Stand-in for Python `str(float)` used inside f-strings. -/
def showQ (q : Rat) : String :=
  toString q.num ++ (if q.den = 1 then "" else "/" ++ toString q.den)

/-- `format_ebay_price` (scrape_vinted.py lines 155-163, scrape_catawiki.py
lines 172-180): `$` for USD, `€` for EUR, `"<value> <code>"` otherwise;
`None` value gives `None`. -/
def format_ebay_price (value : Option Rat) (currency : Option String) : Option String :=
  match value with
  | none => none
  | some v =>
    let c := upperStr (pyOrS currency "USD")
    if c = "USD" then some ("$" ++ showQ v)
    else if c = "EUR" then some ("€" ++ showQ v)
    else some (showQ v ++ " " ++ c)

/-- One entry of the API's `itemSummaries` array.  `priceValue` models
`item.get("price", {}).get("value")`: `none` = key missing, `some none` =
present but `float()` raises (non-numeric), `some (some v)` = numeric. -/
structure ApiItem where
  itemId : Option String
  title : Option String
  priceValue : Option (Option Rat)
  priceCurrency : Option String
  itemWebUrl : Option String
deriving DecidableEq

/-- Parsed JSON body of a successful search response. -/
structure ApiResponse where
  itemSummaries : List ApiItem
  total : Option Nat
deriving DecidableEq

/-- One element of the returned `listings` array. -/
structure EbayListing where
  itemId : Option String
  title : String
  price : Option String
  priceValue : Rat
  currency : String
  url : Option String
deriving DecidableEq

/-- The returned price band dict. -/
structure PriceBand where
  listings : List EbayListing
  total : Nat
  minPrice : Option String
  maxPrice : Option String
  currency : Option String
deriving DecidableEq

/-- The canonical "no match" band returned for a blank query or when no
item carries a numeric price. -/
def emptyPriceBand : PriceBand :=
  { listings := [], total := 0, minPrice := none, maxPrice := none, currency := none }

/-- The body of the `for item in item_summaries` loop for one item: skip when
the price value is missing or non-numeric, otherwise build the listing entry
(`cur = (price.get("currency") or "USD").upper()`). -/
def listingOfItem (item : ApiItem) : Option EbayListing :=
  match item.priceValue with
  | some (some v) =>
    let cur := upperStr (pyOrS item.priceCurrency "USD")
    some { itemId := item.itemId, title := item.title.getD "",
           price := format_ebay_price (some v) (some cur),
           priceValue := v, currency := cur, url := item.itemWebUrl }
  | _ => none

/-- The whole summary loop: accumulates `listings`, `prices` and the
first-kept-item `currency` exactly as the Python loop's three accumulators. -/
def collectItems : List ApiItem → List EbayListing × List Rat × Option String
  | [] => ([], [], none)
  | item :: rest =>
    let acc := collectItems rest
    match listingOfItem item with
    | some l => (l :: acc.1, l.priceValue :: acc.2.1, some l.currency)
    | none => acc

/-- Python `min(p :: ps)` / `max(p :: ps)`. -/
def listMin (p : Rat) (ps : List Rat) : Rat := ps.foldl min p

def listMax (p : Rat) (ps : List Rat) : Rat := ps.foldl max p

/-- Python `o or d` on an optional count: `None` and `0` are falsy. -/
def pyOrNat (o : Option Nat) (d : Nat) : Nat :=
  match o with
  | none => d
  | some n => if n = 0 then d else n

/-- `search_ebay_current_listings` given the parsed body of a successful
response.  Mirrors: blank-query early return, the summary loop, the
`if not prices` early return, and the final band construction with
`total = data.get("total") or len(listings)`. -/
def search_ebay_current_listings (resp : ApiResponse) (query : String) : PriceBand :=
  if pyStrip query = "" then emptyPriceBand
  else
    let acc := collectItems resp.itemSummaries
    match acc.2.1 with
    | [] => emptyPriceBand
    | p :: ps =>
      { listings := acc.1,
        total := pyOrNat resp.total acc.1.length,
        minPrice := format_ebay_price (some (listMin p ps)) acc.2.2,
        maxPrice := format_ebay_price (some (listMax p ps)) acc.2.2,
        currency := acc.2.2 }

/-! Structural lemmas about the summary loop. -/

lemma collectItems_listings (l : List ApiItem) :
    (collectItems l).1 = l.filterMap listingOfItem := by
  induction l with
  | nil => rfl
  | cons item rest ih =>
    simp only [collectItems, List.filterMap_cons]
    cases h : listingOfItem item <;> simp [h, ih]

lemma collectItems_prices (l : List ApiItem) :
    (collectItems l).2.1 = (collectItems l).1.map (·.priceValue) := by
  induction l with
  | nil => rfl
  | cons item rest ih =>
    simp only [collectItems]
    cases h : listingOfItem item <;> simp [h, ih]

lemma collectItems_currency (l : List ApiItem) :
    (collectItems l).2.2 = (collectItems l).1.head?.map (·.currency) := by
  induction l with
  | nil => rfl
  | cons item rest ih =>
    simp only [collectItems]
    cases h : listingOfItem item <;> simp [h, ih]

lemma listMin_le (p : Rat) (ps : List Rat) :
    listMin p ps ≤ p ∧ ∀ x ∈ ps, listMin p ps ≤ x := by
  induction ps generalizing p with
  | nil => simp [listMin]
  | cons q qs ih =>
    have h := ih (min p q)
    refine ⟨le_trans h.1 (min_le_left _ _), ?_⟩
    intro x hx
    rcases List.mem_cons.mp hx with rfl | hx
    · exact le_trans h.1 (min_le_right _ _)
    · exact h.2 x hx

lemma le_listMax (p : Rat) (ps : List Rat) :
    p ≤ listMax p ps ∧ ∀ x ∈ ps, x ≤ listMax p ps := by
  induction ps generalizing p with
  | nil => simp [listMax]
  | cons q qs ih =>
    have h := ih (max p q)
    refine ⟨le_trans (le_max_left _ _) h.1, ?_⟩
    intro x hx
    rcases List.mem_cons.mp hx with rfl | hx
    · exact le_trans (le_max_right _ _) h.1
    · exact h.2 x hx

lemma format_ebay_price_isSome (v : Rat) (c : Option String) :
    (format_ebay_price (some v) c).isSome = true := by
  simp only [format_ebay_price]
  split <;> try split
  all_goals simp

/-- Complete case analysis of the search result: either the canonical empty
band (blank query or no priced item), or the fully-described non-empty band. -/
lemma search_cases (resp : ApiResponse) (q : String) :
    (search_ebay_current_listings resp q = emptyPriceBand ∧
      (pyStrip q ≠ "" → resp.itemSummaries.filterMap listingOfItem = [])) ∨
    (pyStrip q ≠ "" ∧
     ∃ L Ls, resp.itemSummaries.filterMap listingOfItem = L :: Ls ∧
       search_ebay_current_listings resp q =
         { listings := L :: Ls,
           total := pyOrNat resp.total (Ls.length + 1),
           minPrice := format_ebay_price
             (some (listMin L.priceValue (Ls.map (·.priceValue)))) (some L.currency),
           maxPrice := format_ebay_price
             (some (listMax L.priceValue (Ls.map (·.priceValue)))) (some L.currency),
           currency := some L.currency }) := by
  by_cases hq : pyStrip q = ""
  · left
    constructor
    · simp [search_ebay_current_listings, hq]
    · intro h; exact absurd hq h
  · have hp := collectItems_prices resp.itemSummaries
    have hcur := collectItems_currency resp.itemSummaries
    have hls := collectItems_listings resp.itemSummaries
    cases hl : (collectItems resp.itemSummaries).1 with
    | nil =>
      left
      have hpr : (collectItems resp.itemSummaries).2.1 = [] := by rw [hp, hl]; rfl
      constructor
      · simp [search_ebay_current_listings, hq, hpr]
      · intro _; rw [← hls, hl]
    | cons L Ls =>
      right
      refine ⟨hq, L, Ls, by rw [← hls, hl], ?_⟩
      have hpr : (collectItems resp.itemSummaries).2.1
          = L.priceValue :: Ls.map (·.priceValue) := by rw [hp, hl]; rfl
      have hc : (collectItems resp.itemSummaries).2.2 = some L.currency := by
        rw [hcur, hl]; rfl
      simp [search_ebay_current_listings, hq, hpr, hc, hl]

/-- C10: every band returned by searchCurrentListings is internally
consistent: empty listings iff null minPrice iff null maxPrice iff null
currency; a non-empty band has every priceValue between the min and max of
the collected values and total at least 1; the band's currency is the first
kept listing's currency, where a kept item with a missing currency code
contributes the default "USD". -/
theorem claim_C10_priceband_invariants (resp : ApiResponse) (query : String)
    (b : PriceBand) (hb : b = search_ebay_current_listings resp query) :
    (b.listings = [] ↔ b.minPrice = none) ∧
    (b.listings = [] ↔ b.maxPrice = none) ∧
    (b.listings = [] ↔ b.currency = none) ∧
    (b.listings ≠ [] → 1 ≤ b.total) ∧
    (∀ L Ls, b.listings = L :: Ls →
      ∀ x ∈ b.listings,
        listMin L.priceValue (Ls.map (·.priceValue)) ≤ x.priceValue ∧
        x.priceValue ≤ listMax L.priceValue (Ls.map (·.priceValue))) ∧
    (b.currency = b.listings.head?.map (·.currency)) ∧
    (pyStrip query ≠ "" → b.listings = resp.itemSummaries.filterMap listingOfItem) ∧
    (∀ item l, listingOfItem item = some l →
      l.currency = upperStr (pyOrS item.priceCurrency "USD")) ∧
    (∀ item v, item.priceValue = some (some v) → item.priceCurrency = none →
      ∃ l, listingOfItem item = some l ∧ l.currency = "USD") := by
  have hcurOf : ∀ item l, listingOfItem item = some l →
      l.currency = upperStr (pyOrS item.priceCurrency "USD") := by
    intro item l h
    unfold listingOfItem at h
    rcases hv : item.priceValue with _ | ov
    · rw [hv] at h; exact Option.noConfusion h
    rcases ov with _ | v
    · rw [hv] at h; exact Option.noConfusion h
    · rw [hv] at h
      simp only [Option.some.injEq] at h
      rw [← h]
  have husd : ∀ item v, item.priceValue = some (some v) → item.priceCurrency = none →
      ∃ l, listingOfItem item = some l ∧ l.currency = "USD" := by
    intro item v hv hc
    have hl : listingOfItem item = some
        { itemId := item.itemId, title := item.title.getD "",
          price := format_ebay_price (some v) (some "USD"), priceValue := v,
          currency := "USD", url := item.itemWebUrl } := by
      unfold listingOfItem
      rw [hv, hc]
      rfl
    exact ⟨_, hl, rfl⟩
  rcases search_cases resp query with ⟨he, hfm⟩ | ⟨hq, L, Ls, hfm, he⟩
  · rw [hb, he]
    refine ⟨by simp [emptyPriceBand], by simp [emptyPriceBand], by simp [emptyPriceBand],
      by simp [emptyPriceBand], ?_, by simp [emptyPriceBand], ?_, hcurOf, husd⟩
    · intro L Ls h
      exact absurd h (by simp [emptyPriceBand])
    · intro h; rw [hfm h]; simp [emptyPriceBand]
  · rw [hb, he]
    have hmin := (format_ebay_price_isSome
      (listMin L.priceValue (Ls.map (·.priceValue))) (some L.currency))
    have hmax := (format_ebay_price_isSome
      (listMax L.priceValue (Ls.map (·.priceValue))) (some L.currency))
    refine ⟨?_, ?_, by simp, ?_, ?_, by simp, fun _ => hfm.symm ▸ rfl, hcurOf, husd⟩
    · constructor
      · intro h; exact absurd h (by simp)
      · intro h
        simp only [Option.isSome_iff_exists] at hmin
        obtain ⟨s, hs⟩ := hmin
        simp [hs] at h
    · constructor
      · intro h; exact absurd h (by simp)
      · intro h
        simp only [Option.isSome_iff_exists] at hmax
        obtain ⟨s, hs⟩ := hmax
        simp [hs] at h
    · intro _
      show 1 ≤ pyOrNat resp.total (Ls.length + 1)
      rcases resp.total with _ | n
      · simp only [pyOrNat]; omega
      · simp only [pyOrNat]
        split <;> omega
    · intro L' Ls' hLL x hx
      obtain ⟨rfl, rfl⟩ : L = L' ∧ Ls = Ls' := by simpa using hLL
      rcases List.mem_cons.mp hx with rfl | hx
      · exact ⟨(listMin_le _ _).1, (le_listMax _ _).1⟩
      · refine ⟨(listMin_le _ _).2 _ ?_, (le_listMax _ _).2 _ ?_⟩
        · exact List.mem_map_of_mem _ hx
        · exact List.mem_map_of_mem _ hx

lemma format_usd (v : Rat) :
    format_ebay_price (some v) (some "USD") = some ("$" ++ showQ v) := rfl

lemma format_eur (v : Rat) :
    format_ebay_price (some v) (some "EUR") = some ("€" ++ showQ v) := rfl

lemma format_other (v : Rat) (c : String) (h1 : upperStr c ≠ "USD")
    (h2 : upperStr c ≠ "EUR") (h3 : c ≠ "") :
    format_ebay_price (some v) (some c) = some (showQ v ++ " " ++ upperStr c) := by
  have hc : pyOrS (some c) "USD" = c := by simp [pyOrS, h3]
  simp only [format_ebay_price, hc]
  rw [if_neg h1, if_neg h2]

/-- The spec's aggregation example: item prices 12.50 EUR, 8.00 EUR and one
item whose price value is missing. -/
def exampleItems : List ApiItem :=
  [ { itemId := some "i1", title := some "2022 card A",
      priceValue := some (some ⟨25, 2, by decide, by decide⟩),
      priceCurrency := some "EUR", itemWebUrl := none },
    { itemId := some "i2", title := some "2022 card B",
      priceValue := some (some 8),
      priceCurrency := some "EUR", itemWebUrl := none },
    { itemId := some "i3", title := some "2022 card C",
      priceValue := none, priceCurrency := none, itemWebUrl := none } ]

def exampleResponse : ApiResponse :=
  { itemSummaries := exampleItems, total := none }

/-- The C2 counterexample response: the API reports `total = 0` while one
item carries a numeric price. -/
def cexItem : ApiItem :=
  { itemId := some "x", title := some "t", priceValue := some (some 5),
    priceCurrency := some "USD", itemWebUrl := none }

def cexResponse : ApiResponse :=
  { itemSummaries := [cexItem], total := some 0 }

/-- C2 (amended): on a successful response with a non-blank query, the band
keeps exactly the items with a numeric price value; the band's currency is
the first kept item's (normalised) currency; min/max prices are the
formatted minimum/maximum of the kept values using the $/€/code table; and
total is the API's reported count when that count is present and non-zero,
otherwise the number of kept listings (0 when nothing was kept). -/
theorem claim_C2_search_aggregation (resp : ApiResponse) (q : String)
    (hq : pyStrip q ≠ "") (b : PriceBand)
    (hb : b = search_ebay_current_listings resp q) :
    (b.listings = resp.itemSummaries.filterMap listingOfItem) ∧
    (b.currency = b.listings.head?.map (·.currency)) ∧
    (∀ L Ls, b.listings = L :: Ls →
      b.minPrice = format_ebay_price
        (some (listMin L.priceValue (Ls.map (·.priceValue)))) b.currency ∧
      b.maxPrice = format_ebay_price
        (some (listMax L.priceValue (Ls.map (·.priceValue)))) b.currency) ∧
    (b.listings ≠ [] → b.total = pyOrNat resp.total b.listings.length) ∧
    (b.listings = [] → b.total = 0) ∧
    (∀ v : Rat, format_ebay_price (some v) (some "USD") = some ("$" ++ showQ v)) ∧
    (∀ v : Rat, format_ebay_price (some v) (some "EUR") = some ("€" ++ showQ v)) ∧
    (∀ (v : Rat) (c : String), upperStr c ≠ "USD" → upperStr c ≠ "EUR" → c ≠ "" →
      format_ebay_price (some v) (some c) = some (showQ v ++ " " ++ upperStr c)) := by
  rcases search_cases resp q with ⟨he, hfm⟩ | ⟨_, L, Ls, hfm, he⟩
  · rw [hb, he]
    refine ⟨by rw [hfm hq]; rfl, rfl, ?_, ?_, fun _ => rfl,
      format_usd, format_eur, format_other⟩
    · intro L Ls h
      exact absurd h (by simp [emptyPriceBand])
    · intro h
      exact absurd rfl h
  · rw [hb, he]
    refine ⟨hfm.symm ▸ rfl, by simp, ?_, ?_, ?_, format_usd, format_eur, format_other⟩
    · intro L' Ls' hLL
      obtain ⟨rfl, rfl⟩ : L = L' ∧ Ls = Ls' := by simpa using hLL
      exact ⟨rfl, rfl⟩
    · intro _
      simp
    · intro h
      exact absurd h (by simp)

/-- C2 counterexample: for a response reporting `total = 0` with one kept
item, the code sets the band's total to the kept-listing count 1, not to the
reported count 0 (Python `or` treats a present-but-zero count as absent). -/
theorem claim_C2_search_aggregation_counterexample :
    cexResponse.total = some 0 ∧
    (search_ebay_current_listings cexResponse "sport card").listings.length = 1 ∧
    (search_ebay_current_listings cexResponse "sport card").total = 1 := by
  refine ⟨rfl, ?_, ?_⟩ <;> decide

/-- Witness for C2 on the spec's example: two listings kept, min formatted
from 8, max from 12.5, currency EUR, total = kept count 2. -/
theorem claim_C2_search_aggregation_witness :
    (search_ebay_current_listings exampleResponse "sport card").listings
      = exampleResponse.itemSummaries.filterMap listingOfItem ∧
    (search_ebay_current_listings exampleResponse "sport card").listings.length = 2 ∧
    (search_ebay_current_listings exampleResponse "sport card").minPrice
      = some ("€" ++ showQ 8) ∧
    (search_ebay_current_listings exampleResponse "sport card").maxPrice
      = some ("€" ++ showQ ⟨25, 2, by decide, by decide⟩) ∧
    (search_ebay_current_listings exampleResponse "sport card").currency = some "EUR" ∧
    (search_ebay_current_listings exampleResponse "sport card").total = 2 :=
  ⟨(claim_C2_search_aggregation exampleResponse "sport card" (by decide) _ rfl).1,
   by decide, by decide, by decide, by decide, by decide⟩

/-! ## Token Cache

`get_ebay_access_token` (scrape_vinted.py lines 121-152, scrape_catawiki.py
lines 133-169, identical logic).  The module globals `_ebay_token` /
`_ebay_token_expiry` become an explicit `TokenState`; `time.time()` becomes
the `now` argument; the POST to the token endpoint becomes the `fetch`
argument (`.error` = non-2xx response, which raises in Python). -/

/-- Parsed JSON of the token endpoint: `data.get("access_token")` and
`data.get("expires_in", 7200)`. -/
structure TokenResp where
  access_token : Option String
  expires_in : Option Rat
deriving DecidableEq

structure TokenState where
  ebay_token : Option String
  ebay_token_expiry : Rat
deriving DecidableEq

/-- Python truthiness of the cached `_ebay_token` (`None` and `""` are falsy). -/
def tokenTruthy : Option String → Bool
  | none => false
  | some s => !(s == "")

/-- Returns `(networkCallMade, returned token, new state)`;
`credsConfigured` models `EBAY_CLIENT_ID and EBAY_CLIENT_SECRET` being set. -/
def get_ebay_access_token (credsConfigured : Bool)
    (fetch : Except Unit TokenResp) (now : Rat) (st : TokenState) :
    Except Unit (Bool × Option String × TokenState) :=
  if !credsConfigured then .error ()
  else if tokenTruthy st.ebay_token ∧ now < st.ebay_token_expiry then
    .ok (false, st.ebay_token, st)
  else
    match fetch with
    | .error _ => .error ()
    | .ok resp =>
      .ok (true, resp.access_token,
        { ebay_token := resp.access_token,
          ebay_token_expiry := now + resp.expires_in.getD 7200 - 60 })

/-- C5: a token fetched at time T with expires_in = E is cached with expiry
T + E - 60; every later call strictly before T + E - 60 returns the cached
token with no network call and unchanged state; every call at or after
T + E - 60 performs a fresh exchange and returns the response's new token. -/
theorem claim_C5_token_cache (T E : Rat) (v : String) (hv : v ≠ "")
    (resp : TokenResp) (hra : resp.access_token = some v)
    (hre : resp.expires_in = some E) :
    (∀ st0 : TokenState, tokenTruthy st0.ebay_token = false →
      get_ebay_access_token true (.ok resp) T st0 =
        .ok (true, some v, { ebay_token := some v, ebay_token_expiry := T + E - 60 })) ∧
    (∀ (t : Rat) (fetch : Except Unit TokenResp), t < T + E - 60 →
      get_ebay_access_token true fetch t
          { ebay_token := some v, ebay_token_expiry := T + E - 60 } =
        .ok (false, some v,
          { ebay_token := some v, ebay_token_expiry := T + E - 60 })) ∧
    (∀ (t : Rat) (resp2 : TokenResp), T + E - 60 ≤ t →
      get_ebay_access_token true (.ok resp2) t
          { ebay_token := some v, ebay_token_expiry := T + E - 60 } =
        .ok (true, resp2.access_token,
          { ebay_token := resp2.access_token,
            ebay_token_expiry := t + resp2.expires_in.getD 7200 - 60 })) := by
  refine ⟨?_, ?_, ?_⟩
  · intro st0 h0
    unfold get_ebay_access_token
    rw [if_neg (by simp), if_neg (by simp [h0])]
    simp [hra, hre]
  · intro t fetch ht
    unfold get_ebay_access_token
    rw [if_neg (by simp), if_pos ⟨by simp [tokenTruthy, hv], ht⟩]
  · intro t resp2 ht
    unfold get_ebay_access_token
    rw [if_neg (by simp), if_neg (by simp [not_lt.mpr ht])]

/-- Witness for C5: E = 7200, fetched at T = 0 (expiry 7140); a call at
t = 7000 hits the cache, a call at t = 7150 refetches. -/
theorem claim_C5_token_cache_witness :
    get_ebay_access_token true (.ok ⟨some "tok2", some 7200⟩) 7000
        { ebay_token := some "tok", ebay_token_expiry := (0 : Rat) + 7200 - 60 } =
      .ok (false, some "tok",
        { ebay_token := some "tok", ebay_token_expiry := (0 : Rat) + 7200 - 60 }) ∧
    get_ebay_access_token true (.ok ⟨some "tok2", some 7200⟩) 7150
        { ebay_token := some "tok", ebay_token_expiry := (0 : Rat) + 7200 - 60 } =
      .ok (true, some "tok2",
        { ebay_token := some "tok2",
          ebay_token_expiry := (7150 : Rat) + (7200 : Rat) - 60 }) := by
  have h := claim_C5_token_cache 0 7200 "tok" (by decide) ⟨some "tok", some 7200⟩ rfl rfl
  exact ⟨h.2.1 7000 (.ok ⟨some "tok2", some 7200⟩) (by norm_num),
         h.2.2 7150 ⟨some "tok2", some 7200⟩ (by norm_num)⟩

/-! ## Store Writer

`col.update_one({"id": i}, {"$set": doc, "$setOnInsert": {"createdAt": now}},
upsert=True)` in scrape_vinted.scrape_once (lines 502-506) and
scrape_catawiki.scrape_category (lines 461-468).  The collection is an
association list keyed by the numeric listing id. -/

/-- Python `a or b` on plain strings: `""` is falsy. -/
def pyOrStr (a b : String) : String := if a = "" then b else a

/-- The `$set` payload built for one item; field names as in the Python
`doc` dicts (both harvesters build the same shape). -/
structure PDoc where
  id : Int
  title : String
  price : String
  price_incl_protection : String
  url : String
  photo_url : String
  brand : String
  condition : String
  likes : Nat
  source : String
  ebay_from : Option String
  ebay_to : Option String
  ebay_count : Nat
  ebay_link : Option String
  updatedAt : Int
deriving DecidableEq

/-- A stored document: the mutable `$set` fields plus the write-once
`createdAt`. -/
structure StoredDoc where
  fields : PDoc
  createdAt : Int
deriving DecidableEq

/-- `find_one`-style lookup on the `id` key, mirroring the Mongo filter
`\x7b"id": i\x7d`. -/
def findDoc (i : Int) : List (Int × StoredDoc) → Option StoredDoc
  | [] => none
  | e :: es => if e.1 = i then some e.2 else findDoc i es

/-- Mongo upsert keyed on `id`: overwrite the `$set` fields of an existing
document keeping its `createdAt`; insert with `createdAt := now` otherwise. -/
def update_one (store : List (Int × StoredDoc)) (i : Int) (doc : PDoc)
    (now : Int) : List (Int × StoredDoc) :=
  match findDoc i store with
  | some old => store.map fun e => if e.1 = i then (i, ⟨doc, old.createdAt⟩) else e
  | none => store ++ [(i, ⟨doc, now⟩)]

lemma findDoc_map_update (i : Int) (x : StoredDoc) :
    ∀ store : List (Int × StoredDoc),
      findDoc i (store.map fun e => if e.1 = i then (i, x) else e) =
        if (findDoc i store).isSome then some x else none := by
  intro store
  induction store with
  | nil => rfl
  | cons e es ih =>
    simp only [List.map_cons, findDoc]
    by_cases he : e.1 = i
    · rw [if_pos he]
      simp [findDoc, he]
    · rw [if_neg he]
      simp only [findDoc, if_neg he]
      exact ih

lemma findDoc_append_single (store : List (Int × StoredDoc)) (i : Int)
    (x : StoredDoc) (h : findDoc i store = none) :
    findDoc i (store ++ [(i, x)]) = some x := by
  induction store with
  | nil => simp [findDoc]
  | cons e es ih =>
    by_cases he : e.1 = i
    · simp only [findDoc, if_pos he] at h
      exact Option.noConfusion h
    · simp only [findDoc, if_neg he] at h
      simp only [List.cons_append, findDoc, if_neg he]
      exact ih h

/-- C3: upserting the same fresh id twice with different field values leaves
createdAt as the first call set it, and every `$set` field (including
updatedAt) holds the second call\x27s values. -/
theorem claim_C3_upsert_set_on_insert (store : List (Int × StoredDoc))
    (i : Int) (d1 d2 : PDoc) (t1 t2 : Int)
    (hfresh : findDoc i store = none) (_hne : d1 ≠ d2) :
    findDoc i (update_one (update_one store i d1 t1) i d2 t2) =
      some { fields := d2, createdAt := t1 } := by
  have h1 : update_one store i d1 t1 = store ++ [(i, ⟨d1, t1⟩)] := by
    unfold update_one
    rw [hfresh]
  generalize hs1 : update_one store i d1 t1 = s1 at h1
  have h2 : findDoc i s1 = some ⟨d1, t1⟩ := by
    rw [h1]
    exact findDoc_append_single store i _ hfresh
  unfold update_one
  rw [h2]
  rw [findDoc_map_update i _ s1, h2]
  rfl

def pdocA : PDoc :=
  { id := 1, title := "2022 card", price := "5 EUR",
    price_incl_protection := "6 EUR", url := "u", photo_url := "p",
    brand := "b", condition := "c", likes := 12, source := "vinted",
    ebay_from := some "$5", ebay_to := some "$9", ebay_count := 3,
    ebay_link := none, updatedAt := 10 }

def pdocB : PDoc := { pdocA with likes := 15, updatedAt := 20 }

/-- Witness for C3 on an empty store with two concrete distinct documents. -/
theorem claim_C3_upsert_set_on_insert_witness :
    pdocA ≠ pdocB ∧
    findDoc 1 (update_one (update_one [] 1 pdocA 10) 1 pdocB 20) =
      some { fields := pdocB, createdAt := 10 } :=
  ⟨by decide, claim_C3_upsert_set_on_insert [] 1 pdocA pdocB 10 20 rfl (by decide)⟩

/-! ## Harvest pipelines

`scrape_vinted.scrape_once` (lines 422-520) and
`scrape_catawiki.scrape_category` (lines 383-481).  The browser page
fetch+parse becomes the per-page oracle `P : Nat -> Except Unit (List _)`
(`.error` = the fetch raised a transport/render error; `.ok items` = the
parsed raw listings).  The eBay search becomes the oracle
`ebay : String -> Except Unit PriceBand` keyed by the query actually sent
(`.error` = `search_ebay_current_listings` raised).  `datetime.now` becomes
the `now` argument (the code takes a fresh timestamp per item; no claim
distinguishes the per-item times).  The Mongo upserts performed by the run
are collected, in order, in `persisted`. -/

def VINTED_MIN_LIKES : Nat := 10

def VINTED_MAX_PAGES : Nat := 50

/-- Marketplace-to-domain table of scrape_catawiki.py (lines 77-86). -/
def MARKETPLACE_DOMAIN : List (String × String) :=
  [("EBAY_US", "ebay.com"), ("EBAY_GB", "ebay.co.uk"), ("EBAY_DE", "ebay.de"),
   ("EBAY_ES", "ebay.es"), ("EBAY_FR", "ebay.fr"), ("EBAY_IT", "ebay.it"),
   ("EBAY_NL", "ebay.nl"), ("EBAY_PL", "ebay.pl")]

/-- `EBAY_MARKETPLACE_ID` environment default. -/
def EBAY_MARKETPLACE_ID : String := "EBAY_ES"

def get_ebay_domain : String :=
  (MARKETPLACE_DOMAIN.lookup EBAY_MARKETPLACE_ID).getD "ebay.com"

def hexDigit (n : Nat) : Char :=
  if n < 10 then Char.ofNat (48 + n) else Char.ofNat (55 + n)

/-- UTF-8 bytes of a code point, for percent-encoding. -/
def utf8Bytes (c : Char) : List Nat :=
  let n := c.toNat
  if n < 128 then [n]
  else if n < 2048 then [192 + n / 64, 128 + n % 64]
  else if n < 65536 then [224 + n / 4096, 128 + n / 64 % 64, 128 + n % 64]
  else [240 + n / 262144, 128 + n / 4096 % 64, 128 + n / 64 % 64, 128 + n % 64]

/-- `urllib.parse.quote` on one character (default safe set plus `/`). -/
def quoteChar (c : Char) : List Char :=
  if c.isAlphanum || c == '_' || c == '.' || c == '-' || c == '~' || c == '/' then [c]
  else ((utf8Bytes c).map fun b => ['%', hexDigit (b / 16), hexDigit (b % 16)]).flatten

def urlQuote (s : String) : String := String.mk ((s.data.map quoteChar).flatten)

/-- `scrape_vinted.build_ebay_link` (lines 244-248). -/
def build_ebay_link (title : String) : Option String :=
  if title = "" then none
  else some ("https://www.ebay.com/sch/i.html?_nkw=" ++ urlQuote (pyTake title 80))

/-- `scrape_catawiki.build_ebay_link` (lines 269-275), using the marketplace
domain. -/
def catawiki_build_ebay_link (title : String) : Option String :=
  if title = "" then none
  else some ("https://www." ++ get_ebay_domain ++ "/sch/i.html?_nkw="
    ++ urlQuote (pyTake title 80))

/-- One card parsed by `parse_vinted_cards`.  `urlItemsId` models
`re.search(r"/items/(\d+)", url)` applied to `url`. -/
structure RawCard where
  id : Option Int
  title : String
  price_text : String
  price_incl_text : String
  url : String
  photo_url : String
  brand : String
  condition : String
  likes : Nat
  urlItemsId : Option Int
deriving DecidableEq

/-- One lot parsed by `scrape_catawiki.parse_listings`.  `lotId` models
`re.search(r"/es/l/(\d+)", url)` applied to the lot url. -/
structure RawLot where
  title : String
  price_or_current_bid : String
  bids : String
  time_left : String
  url : String
  likes : Nat
  photo_url : String
  lotId : Option Int
deriving DecidableEq

/-- The per-item body of the Vinted page loop (scrape_once lines 454-508):
year filter on the stripped title, id derivation (a parsed id of 0 is falsy
in Python and falls back to the URL), the eBay search (errors are caught and
skip the item), the zero-listings skip, and the `$set` document. -/
def vintedProcessItem (ebay : String → Except Unit PriceBand) (now : Int)
    (raw : RawCard) : Option PDoc :=
  let title := pyStrip raw.title
  if title_has_year title = false then none
  else
    match (match raw.id with
           | some i => if i = 0 then raw.urlItemsId else some i
           | none => raw.urlItemsId) with
    | none => none
    | some item_id =>
      match ebay (pyTake title 200) with
      | .error _ => none
      | .ok b =>
        if b.listings.isEmpty then none
        else some
          { id := item_id, title := title, price := raw.price_text,
            price_incl_protection := pyOrStr raw.price_incl_text raw.price_text,
            url := raw.url, photo_url := raw.photo_url, brand := raw.brand,
            condition := raw.condition, likes := raw.likes, source := "vinted",
            ebay_from := b.minPrice, ebay_to := b.maxPrice,
            ebay_count := b.total, ebay_link := build_ebay_link title,
            updatedAt := now }

/-- The per-item body of the Catawiki page loop (scrape_category lines
418-469): inline year filter, lot-id derivation from the url, the eBay
search (errors caught, item skipped), zero-listings skip, and the document. -/
def catawikiProcessItem (ebay : String → Except Unit PriceBand) (now : Int)
    (row : RawLot) : Option PDoc :=
  if catawiki_title_has_year row.title = false then none
  else
    match row.lotId with
    | none => none
    | some lot_id =>
      match ebay (pyTake row.title 200) with
      | .error _ => none
      | .ok b =>
        if b.listings.isEmpty then none
        else some
          { id := lot_id, title := row.title,
            price := row.price_or_current_bid,
            price_incl_protection := row.price_or_current_bid,
            url := row.url, photo_url := row.photo_url, brand := "",
            condition := "", likes := row.likes, source := "catawiki",
            ebay_from := b.minPrice, ebay_to := b.maxPrice,
            ebay_count := b.total,
            ebay_link := catawiki_build_ebay_link row.title,
            updatedAt := now }

/-- Pages attempted and documents upserted by one harvest run. -/
structure HarvestResult where
  fetched : List Nat
  persisted : List PDoc
deriving DecidableEq

/-- Vinted page loop, one constructor case per stopping rule: transport
error on the fetch (caught: `break`), an empty parsed page (`break`), an
empty engagement-filtered page (`break`), else process the page and move on.
`fuel` is the number of page indices still allowed (maxPages accounting). -/
def vintedGo (P : Nat → Except Unit (List RawCard))
    (ebay : String → Except Unit PriceBand) (now : Int) :
    Nat → Nat → List Nat → List PDoc → HarvestResult
  | 0, _, fetched, persisted => ⟨fetched, persisted⟩
  | fuel + 1, pageNum, fetched, persisted =>
    match P pageNum with
    | .error _ => ⟨fetched ++ [pageNum], persisted⟩
    | .ok items =>
      match items, items.filter (fun r => VINTED_MIN_LIKES ≤ r.likes) with
      | [], _ => ⟨fetched ++ [pageNum], persisted⟩
      | _ :: _, [] => ⟨fetched ++ [pageNum], persisted⟩
      | _ :: _, l :: ls =>
        vintedGo P ebay now fuel (pageNum + 1) (fetched ++ [pageNum])
          (persisted ++ (l :: ls).filterMap (vintedProcessItem ebay now))

/-- `scrape_once`: pages 1 .. maxPages (`VINTED_MAX_PAGES` default 50). -/
def scrape_once (P : Nat → Except Unit (List RawCard))
    (ebay : String → Except Unit PriceBand) (now : Int) (maxPages : Nat) :
    HarvestResult :=
  vintedGo P ebay now maxPages 1 [] []

/-- Catawiki run result: the page fetch is NOT wrapped in try/except inside
`scrape_category`, so a transport error propagates out of the call;
`outcome = .error ()` records that propagation (the `finally:` still runs). -/
structure CataResult where
  fetched : List Nat
  persisted : List PDoc
  outcome : Except Unit Unit

/-- Catawiki page loop: a fetch error propagates (no surrounding try), a page
whose engagement filter keeps nothing stops the run (there is no separate
empty-page check in this file), else process the page and move on. -/
def catawikiGo (P : Nat → Except Unit (List RawLot))
    (ebay : String → Except Unit PriceBand) (now : Int) :
    Nat → Nat → List Nat → List PDoc → CataResult
  | 0, _, fetched, persisted => ⟨fetched, persisted, .ok ()⟩
  | fuel + 1, pageNum, fetched, persisted =>
    match P pageNum with
    | .error _ => ⟨fetched ++ [pageNum], persisted, .error ()⟩
    | .ok items =>
      match items.filter (fun r => 10 ≤ r.likes) with
      | [] => ⟨fetched ++ [pageNum], persisted, .ok ()⟩
      | l :: ls =>
        catawikiGo P ebay now fuel (pageNum + 1) (fetched ++ [pageNum])
          (persisted ++ (l :: ls).filterMap (catawikiProcessItem ebay now))

/-- `scrape_category`: hard cap of 50 pages. -/
def scrape_category (P : Nat → Except Unit (List RawLot))
    (ebay : String → Except Unit PriceBand) (now : Int) : CataResult :=
  catawikiGo P ebay now 50 1 [] []

/-! Stopping and continuation lemmas for the Vinted page walk. -/

/-- Page `k` stops the Vinted walk: the fetch raised, or the page parsed to
a list whose engagement filter keeps nothing (this covers the empty page,
whose filter is also empty). -/
def vintedStops (P : Nat → Except Unit (List RawCard)) (k : Nat) : Prop :=
  P k = .error () ∨
  ∃ items, P k = .ok items ∧
    items.filter (fun r => VINTED_MIN_LIKES ≤ r.likes) = []

lemma vintedGo_stop_at (P : Nat → Except Unit (List RawCard))
    (ebay : String → Except Unit PriceBand) (now : Int) (k : Nat)
    (hk : vintedStops P k) (fuel : Nat) (f : List Nat) (ps : List PDoc) :
    vintedGo P ebay now (fuel + 1) k f ps = ⟨f ++ [k], ps⟩ := by
  rcases hk with herr | ⟨items, hP, hfil⟩
  · simp [vintedGo, herr]
  · rcases items with _ | ⟨x, xs⟩
    · simp [vintedGo, hP]
    · simp [vintedGo, hP, hfil]

lemma vintedGo_step (P : Nat → Except Unit (List RawCard))
    (ebay : String → Except Unit PriceBand) (now : Int) (p : Nat)
    (items : List RawCard) (x : RawCard) (xs : List RawCard)
    (l : RawCard) (ls : List RawCard)
    (hP : P p = .ok items) (hit : items = x :: xs)
    (hfil : items.filter (fun r => VINTED_MIN_LIKES ≤ r.likes) = l :: ls)
    (fuel : Nat) (f : List Nat) (ps : List PDoc) :
    vintedGo P ebay now (fuel + 1) p f ps =
      vintedGo P ebay now fuel (p + 1) (f ++ [p])
        (ps ++ (l :: ls).filterMap (vintedProcessItem ebay now)) := by
  subst hit
  simp [vintedGo, hP, hfil]

lemma vintedGo_not_fetch (P : Nat → Except Unit (List RawCard))
    (ebay : String → Except Unit PriceBand) (now : Int) (k : Nat)
    (hk : vintedStops P k) :
    ∀ (fuel p : Nat) (f : List Nat) (ps : List PDoc), p ≤ k → (k + 1) ∉ f →
      (k + 1) ∉ (vintedGo P ebay now fuel p f ps).fetched := by
  intro fuel
  induction fuel with
  | zero =>
    intro p f ps _ hmem
    simpa [vintedGo] using hmem
  | succ fuel ih =>
    intro p f ps hp hmem
    by_cases hpk : p = k
    · subst hpk
      rw [vintedGo_stop_at P ebay now p hk]
      simp only [List.mem_append, List.mem_singleton]
      rintro (h | h)
      · exact hmem h
      · omega
    · have hplt : p < k := lt_of_le_of_ne hp hpk
      have hnf : (k + 1) ∉ f ++ [p] := by
        simp only [List.mem_append, List.mem_singleton]
        rintro (h | h)
        · exact hmem h
        · omega
      cases hPp : P p with
      | error e =>
        simpa [vintedGo, hPp] using hnf
      | ok items =>
        rcases hit : items with _ | ⟨x, xs⟩
        · simpa [vintedGo, hPp, hit] using hnf
        · rcases hfil : items.filter (fun r => VINTED_MIN_LIKES ≤ r.likes)
            with _ | ⟨l, ls⟩
          · rw [vintedGo_stop_at P ebay now p (Or.inr ⟨items, hPp, hfil⟩)]
            simpa using hnf
          · rw [vintedGo_step P ebay now p items x xs l ls hPp hit hfil]
            exact ih (p + 1) _ _ (by omega) hnf

/-- A transport error at page `p + r` truncates the walk: with enough fuel
on the left, the persisted documents equal those of a run whose page budget
ends just before the failing page. -/
lemma vintedGo_trunc (P : Nat → Except Unit (List RawCard))
    (ebay : String → Except Unit PriceBand) (now : Int) :
    ∀ (r p : Nat) (f : List Nat) (ps : List PDoc) (l : Nat),
      P (p + r) = .error () → r ≤ l →
      (vintedGo P ebay now l p f ps).persisted =
        (vintedGo P ebay now r p f ps).persisted := by
  intro r
  induction r with
  | zero =>
    intro p f ps l herr _
    rcases l with _ | l'
    · rfl
    · rw [show p + 0 = p from rfl] at herr
      rw [vintedGo_stop_at P ebay now p (Or.inl herr)]
      rfl
  | succ r ih =>
    intro p f ps l herr hrl
    rcases l with _ | l'
    · omega
    · cases hPp : P p with
      | error e =>
        rw [vintedGo_stop_at P ebay now p (Or.inl (by rw [hPp])),
            vintedGo_stop_at P ebay now p (Or.inl (by rw [hPp]))]
      | ok items =>
        rcases hit : items with _ | ⟨x, xs⟩
        · rw [vintedGo_stop_at P ebay now p (Or.inr ⟨items, hPp, by simp [hit]⟩),
              vintedGo_stop_at P ebay now p (Or.inr ⟨items, hPp, by simp [hit]⟩)]
        · rcases hfil : items.filter (fun r => VINTED_MIN_LIKES ≤ r.likes)
            with _ | ⟨a, as⟩
          · rw [vintedGo_stop_at P ebay now p (Or.inr ⟨items, hPp, hfil⟩),
                vintedGo_stop_at P ebay now p (Or.inr ⟨items, hPp, hfil⟩)]
          · rw [vintedGo_step P ebay now p items x xs a as hPp hit hfil,
                vintedGo_step P ebay now p items x xs a as hPp hit hfil]
            exact ih (p + 1) _ _ l' (by rw [show p + 1 + r = p + (r + 1) from by omega]; exact herr) (by omega)

/-- Which pages the Vinted walk attempts does not depend on the enrichment
oracle, the clock, or the documents accumulated so far. -/
lemma vintedGo_fetched_indep (P : Nat → Except Unit (List RawCard))
    (e1 e2 : String → Except Unit PriceBand) (n1 n2 : Int) :
    ∀ (fuel p : Nat) (f : List Nat) (ps1 ps2 : List PDoc),
      (vintedGo P e1 n1 fuel p f ps1).fetched =
        (vintedGo P e2 n2 fuel p f ps2).fetched := by
  intro fuel
  induction fuel with
  | zero => intro p f ps1 ps2; rfl
  | succ fuel ih =>
    intro p f ps1 ps2
    cases hPp : P p with
    | error e => simp [vintedGo, hPp]
    | ok items =>
      rcases hit : items with _ | ⟨x, xs⟩
      · simp [vintedGo, hPp, hit]
      · rcases hfil : items.filter (fun r => VINTED_MIN_LIKES ≤ r.likes)
          with _ | ⟨a, as⟩
        · rw [vintedGo_stop_at P e1 n1 p (Or.inr ⟨items, hPp, hfil⟩),
              vintedGo_stop_at P e2 n2 p (Or.inr ⟨items, hPp, hfil⟩)]
        · rw [vintedGo_step P e1 n1 p items x xs a as hPp hit hfil,
              vintedGo_step P e2 n2 p items x xs a as hPp hit hfil]
          exact ih (p + 1) _ _ _

/-! The same lemmas for the Catawiki page walk. -/

def cataStops (P : Nat → Except Unit (List RawLot)) (k : Nat) : Prop :=
  P k = .error () ∨
  ∃ items, P k = .ok items ∧ items.filter (fun r => 10 ≤ r.likes) = []

lemma catawikiGo_stop_err (P : Nat → Except Unit (List RawLot))
    (ebay : String → Except Unit PriceBand) (now : Int) (k : Nat)
    (hk : P k = .error ()) (fuel : Nat) (f : List Nat) (ps : List PDoc) :
    catawikiGo P ebay now (fuel + 1) k f ps = ⟨f ++ [k], ps, .error ()⟩ := by
  simp [catawikiGo, hk]

lemma catawikiGo_stop_empty (P : Nat → Except Unit (List RawLot))
    (ebay : String → Except Unit PriceBand) (now : Int) (k : Nat)
    (items : List RawLot) (hP : P k = .ok items)
    (hfil : items.filter (fun r => 10 ≤ r.likes) = [])
    (fuel : Nat) (f : List Nat) (ps : List PDoc) :
    catawikiGo P ebay now (fuel + 1) k f ps = ⟨f ++ [k], ps, .ok ()⟩ := by
  simp [catawikiGo, hP, hfil]

lemma catawikiGo_step (P : Nat → Except Unit (List RawLot))
    (ebay : String → Except Unit PriceBand) (now : Int) (p : Nat)
    (items : List RawLot) (l : RawLot) (ls : List RawLot)
    (hP : P p = .ok items)
    (hfil : items.filter (fun r => 10 ≤ r.likes) = l :: ls)
    (fuel : Nat) (f : List Nat) (ps : List PDoc) :
    catawikiGo P ebay now (fuel + 1) p f ps =
      catawikiGo P ebay now fuel (p + 1) (f ++ [p])
        (ps ++ (l :: ls).filterMap (catawikiProcessItem ebay now)) := by
  simp [catawikiGo, hP, hfil]

lemma catawikiGo_not_fetch (P : Nat → Except Unit (List RawLot))
    (ebay : String → Except Unit PriceBand) (now : Int) (k : Nat)
    (hk : cataStops P k) :
    ∀ (fuel p : Nat) (f : List Nat) (ps : List PDoc), p ≤ k → (k + 1) ∉ f →
      (k + 1) ∉ (catawikiGo P ebay now fuel p f ps).fetched := by
  intro fuel
  induction fuel with
  | zero =>
    intro p f ps _ hmem
    simpa [catawikiGo] using hmem
  | succ fuel ih =>
    intro p f ps hp hmem
    have hstop : ∀ ps' : List PDoc,
        (k + 1) ∉ (f ++ [p] : List Nat) := by
      intro _
      simp only [List.mem_append, List.mem_singleton]
      rintro (h | h)
      · exact hmem h
      · omega
    by_cases hpk : p = k
    · subst hpk
      rcases hk with herr | ⟨items, hP, hfil⟩
      · rw [catawikiGo_stop_err P ebay now p herr]
        exact hstop ps
      · rw [catawikiGo_stop_empty P ebay now p items hP hfil]
        exact hstop ps
    · have hplt : p < k := lt_of_le_of_ne hp hpk
      cases hPp : P p with
      | error e =>
        rw [catawikiGo_stop_err P ebay now p (by rw [hPp])]
        exact hstop ps
      | ok items =>
        rcases hfil : items.filter (fun r => 10 ≤ r.likes) with _ | ⟨a, as⟩
        · rw [catawikiGo_stop_empty P ebay now p items hPp hfil]
          exact hstop ps
        · rw [catawikiGo_step P ebay now p items a as hPp hfil]
          exact ih (p + 1) _ _ (by omega) (hstop ps)

lemma catawikiGo_trunc (P : Nat → Except Unit (List RawLot))
    (ebay : String → Except Unit PriceBand) (now : Int) :
    ∀ (r p : Nat) (f : List Nat) (ps : List PDoc) (l : Nat),
      P (p + r) = .error () → r ≤ l →
      (catawikiGo P ebay now l p f ps).persisted =
        (catawikiGo P ebay now r p f ps).persisted := by
  intro r
  induction r with
  | zero =>
    intro p f ps l herr _
    rcases l with _ | l'
    · rfl
    · rw [show p + 0 = p from rfl] at herr
      rw [catawikiGo_stop_err P ebay now p herr]
      rfl
  | succ r ih =>
    intro p f ps l herr hrl
    rcases l with _ | l'
    · omega
    · cases hPp : P p with
      | error e =>
        rw [catawikiGo_stop_err P ebay now p (by rw [hPp]),
            catawikiGo_stop_err P ebay now p (by rw [hPp])]
      | ok items =>
        rcases hfil : items.filter (fun r => 10 ≤ r.likes) with _ | ⟨a, as⟩
        · rw [catawikiGo_stop_empty P ebay now p items hPp hfil,
              catawikiGo_stop_empty P ebay now p items hPp hfil]
        · rw [catawikiGo_step P ebay now p items a as hPp hfil,
              catawikiGo_step P ebay now p items a as hPp hfil]
          exact ih (p + 1) _ _ l'
            (by rw [show p + 1 + r = p + (r + 1) from by omega]; exact herr)
            (by omega)

lemma catawikiGo_indep (P : Nat → Except Unit (List RawLot))
    (e1 e2 : String → Except Unit PriceBand) (n1 n2 : Int) :
    ∀ (fuel p : Nat) (f : List Nat) (ps1 ps2 : List PDoc),
      (catawikiGo P e1 n1 fuel p f ps1).fetched =
        (catawikiGo P e2 n2 fuel p f ps2).fetched ∧
      (catawikiGo P e1 n1 fuel p f ps1).outcome =
        (catawikiGo P e2 n2 fuel p f ps2).outcome := by
  intro fuel
  induction fuel with
  | zero => intro p f ps1 ps2; exact ⟨rfl, rfl⟩
  | succ fuel ih =>
    intro p f ps1 ps2
    cases hPp : P p with
    | error e =>
      rw [catawikiGo_stop_err P e1 n1 p (by rw [hPp]),
          catawikiGo_stop_err P e2 n2 p (by rw [hPp])]
      exact ⟨rfl, rfl⟩
    | ok items =>
      rcases hfil : items.filter (fun r => 10 ≤ r.likes) with _ | ⟨a, as⟩
      · rw [catawikiGo_stop_empty P e1 n1 p items hPp hfil,
            catawikiGo_stop_empty P e2 n2 p items hPp hfil]
        exact ⟨rfl, rfl⟩
      · rw [catawikiGo_step P e1 n1 p items a as hPp hfil,
            catawikiGo_step P e2 n2 p items a as hPp hfil]
        exact ih (p + 1) _ _ _

/-- Pages `p .. p + r - 1` each keep at least one engagement-qualifying lot. -/
def cataGood (P : Nat → Except Unit (List RawLot)) (i : Nat) : Prop :=
  ∃ items a as, P i = .ok items ∧ items.filter (fun r => 10 ≤ r.likes) = a :: as

/-- If every page before the failing page is good and the failing page is
within the budget, the transport error escapes `scrape_category`. -/
lemma catawikiGo_outcome_error (P : Nat → Except Unit (List RawLot))
    (ebay : String → Except Unit PriceBand) (now : Int) :
    ∀ (r p : Nat) (f : List Nat) (ps : List PDoc) (l : Nat),
      (∀ i, p ≤ i → i < p + r → cataGood P i) →
      P (p + r) = .error () → r < l →
      (catawikiGo P ebay now l p f ps).outcome = .error () := by
  intro r
  induction r with
  | zero =>
    intro p f ps l _ herr hrl
    rcases l with _ | l'
    · omega
    · rw [show p + 0 = p from rfl] at herr
      rw [catawikiGo_stop_err P ebay now p herr]
  | succ r ih =>
    intro p f ps l hgood herr hrl
    rcases l with _ | l'
    · omega
    · obtain ⟨items, a, as, hP, hfil⟩ := hgood p (le_refl p) (by omega)
      rw [catawikiGo_step P ebay now p items a as hP hfil]
      exact ih (p + 1) _ _ l'
        (fun i hi1 hi2 => hgood i (by omega) (by omega))
        (by rw [show p + 1 + r = p + (r + 1) from by omega]; exact herr)
        (by omega)

/-- C6: if the engagement filter keeps zero raw items on a reached page
k < 50, neither harvester ever fetches page k + 1. -/
theorem claim_C6_engagement_stop
    (Pv : Nat → Except Unit (List RawCard)) (Pc : Nat → Except Unit (List RawLot))
    (ev ec : String → Except Unit PriceBand) (nv nc : Int) (k : Nat)
    (hk1 : 1 ≤ k) (_hk50 : k < 50)
    (itemsV : List RawCard) (hPv : Pv k = .ok itemsV)
    (hfv : itemsV.filter (fun r => VINTED_MIN_LIKES ≤ r.likes) = [])
    (itemsC : List RawLot) (hPc : Pc k = .ok itemsC)
    (hfc : itemsC.filter (fun r => 10 ≤ r.likes) = []) :
    (k + 1) ∉ (scrape_once Pv ev nv VINTED_MAX_PAGES).fetched ∧
    (k + 1) ∉ (scrape_category Pc ec nc).fetched :=
  ⟨vintedGo_not_fetch Pv ev nv k (Or.inr ⟨itemsV, hPv, hfv⟩)
      VINTED_MAX_PAGES 1 [] [] hk1 (by simp),
   catawikiGo_not_fetch Pc ec nc k (Or.inr ⟨itemsC, hPc, hfc⟩)
      50 1 [] [] hk1 (by simp)⟩

/-- Witness for C6 at page 7 with an oracle whose every page parses empty. -/
theorem claim_C6_engagement_stop_witness :
    8 ∉ (scrape_once (fun _ => .ok []) (fun _ => .error ()) 0 VINTED_MAX_PAGES).fetched ∧
    8 ∉ (scrape_category (fun _ => .ok []) (fun _ => .error ()) 0).fetched :=
  claim_C6_engagement_stop (fun _ => .ok []) (fun _ => .ok [])
    (fun _ => .error ()) (fun _ => .error ()) 0 0 7 (by norm_num) (by norm_num)
    [] rfl rfl [] rfl rfl

/-- Inputs for the C7 witness. -/
def itemC7 : ApiItem :=
  { itemId := some "y", title := some "t", priceValue := none,
    priceCurrency := none, itemWebUrl := none }

def respC7 : ApiResponse := { itemSummaries := [itemC7], total := some 7 }

def rawCardW : RawCard :=
  { id := some 5, title := "2022 card", price_text := "1", price_incl_text := "",
    url := "", photo_url := "", brand := "", condition := "", likes := 12,
    urlItemsId := none }

def rawLotW : RawLot :=
  { title := "2022 card", price_or_current_bid := "", bids := "",
    time_left := "", url := "", likes := 12, photo_url := "", lotId := some 9 }

/-- C7: a band built from zero numeric-priced items is the canonical
no-match value (empty listings, total 0, null min/max/currency), and when
the enrichment of an item returns a band with empty listings, the item is
skipped: no document is produced for it, in either harvester. -/
theorem claim_C7_empty_band_skip :
    (∀ (resp : ApiResponse) (q : String),
      resp.itemSummaries.filterMap listingOfItem = [] →
      search_ebay_current_listings resp q = emptyPriceBand) ∧
    (∀ (ebay : String → Except Unit PriceBand) (now : Int) (raw : RawCard)
        (b : PriceBand),
      ebay (pyTake (pyStrip raw.title) 200) = .ok b → b.listings = [] →
      vintedProcessItem ebay now raw = none) ∧
    (∀ (ebay : String → Except Unit PriceBand) (now : Int) (row : RawLot)
        (b : PriceBand),
      ebay (pyTake row.title 200) = .ok b → b.listings = [] →
      catawikiProcessItem ebay now row = none) := by
  refine ⟨?_, ?_, ?_⟩
  · intro resp q hkept
    rcases search_cases resp q with ⟨he, _⟩ | ⟨_, L, Ls, hfm, _⟩
    · exact he
    · rw [hkept] at hfm
      exact List.noConfusion hfm
  · intro ebay now raw b hb hempty
    unfold vintedProcessItem
    by_cases htit : title_has_year (pyStrip raw.title) = false
    · simp [htit]
    · rcases hid : (match raw.id with
        | some i => if i = 0 then raw.urlItemsId else some i
        | none => raw.urlItemsId) with _ | item_id
      · simp [htit, hid]
      · simp [htit, hid, hb, hempty]
  · intro ebay now row b hb hempty
    unfold catawikiProcessItem
    by_cases htit : catawiki_title_has_year row.title = false
    · simp [htit]
    · rcases hid : row.lotId with _ | lot_id
      · simp [htit, hid]
      · simp [htit, hid, hb, hempty]

/-- Witness for C7: a response whose only item lacks a price collapses to
the canonical band, and an empty band makes both per-item bodies skip. -/
theorem claim_C7_empty_band_skip_witness :
    search_ebay_current_listings respC7 "card" = emptyPriceBand ∧
    vintedProcessItem (fun _ => .ok emptyPriceBand) 0 rawCardW = none ∧
    catawikiProcessItem (fun _ => .ok emptyPriceBand) 0 rawLotW = none :=
  ⟨claim_C7_empty_band_skip.1 respC7 "card" rfl,
   claim_C7_empty_band_skip.2.1 (fun _ => .ok emptyPriceBand) 0 rawCardW
     emptyPriceBand rfl rfl,
   claim_C7_empty_band_skip.2.2 (fun _ => .ok emptyPriceBand) 0 rawLotW
     emptyPriceBand rfl rfl⟩

/-- C8 counterexample: a transport error on the Catawiki harvester\x27s very
first page escapes `scrape_category` (its page fetch has no surrounding
try/except), so the harvest does not complete without propagating the error
to its caller. -/
theorem claim_C8_transport_error_counterexample :
    (scrape_category (fun _ => .error ()) (fun _ => .error ()) 0).outcome
      = .error () := rfl

/-- C8 (amended): a transport error while fetching page k stops pagination
at page k for both sources (page k + 1 is never fetched) and the persisted
records equal those of a run whose page budget ends before page k; the
Vinted harvester catches the error and returns normally, while the Catawiki
harvester propagates it to its caller (which catches it) whenever the pages
before k were productive. -/
theorem claim_C8_transport_error_partial
    (Pv : Nat → Except Unit (List RawCard)) (Pc : Nat → Except Unit (List RawLot))
    (ev ec : String → Except Unit PriceBand) (nv nc : Int) (k m : Nat)
    (hk1 : 1 ≤ k) (hkm : k ≤ m) (hk50 : k ≤ 50)
    (hPv : Pv k = .error ()) (hPc : Pc k = .error ()) :
    ((scrape_once Pv ev nv m).persisted =
        (scrape_once Pv ev nv (k - 1)).persisted ∧
      (k + 1) ∉ (scrape_once Pv ev nv m).fetched) ∧
    ((scrape_category Pc ec nc).persisted =
        (catawikiGo Pc ec nc (k - 1) 1 [] []).persisted ∧
      (k + 1) ∉ (scrape_category Pc ec nc).fetched ∧
      ((∀ i, 1 ≤ i → i < k → cataGood Pc i) →
        (scrape_category Pc ec nc).outcome = .error ())) := by
  have hofs : 1 + (k - 1) = k := by omega
  refine ⟨⟨?_, ?_⟩, ?_, ?_, ?_⟩
  · exact vintedGo_trunc Pv ev nv (k - 1) 1 [] [] m (by rw [hofs]; exact hPv)
      (by omega)
  · exact vintedGo_not_fetch Pv ev nv k (Or.inl hPv) m 1 [] [] hk1 (by simp)
  · exact catawikiGo_trunc Pc ec nc (k - 1) 1 [] [] 50 (by rw [hofs]; exact hPc)
      (by omega)
  · exact catawikiGo_not_fetch Pc ec nc k (Or.inl hPc) 50 1 [] [] hk1 (by simp)
  · intro hgood
    exact catawikiGo_outcome_error Pc ec nc (k - 1) 1 [] [] 50
      (fun i h1 h2 => hgood i h1 (by omega)) (by rw [hofs]; exact hPc) (by omega)

/-- Oracles for the C8 witness: page 3 raises, earlier pages are productive
for Catawiki and empty for Vinted. -/
def goodLot : RawLot :=
  { title := "2022 lot", price_or_current_bid := "", bids := "",
    time_left := "", url := "", likes := 12, photo_url := "", lotId := some 1 }

def PvW : Nat → Except Unit (List RawCard) :=
  fun p => if p = 3 then .error () else .ok []

def PcW : Nat → Except Unit (List RawLot) :=
  fun p => if p = 3 then .error () else .ok [goodLot]

/-- Witness for C8 with the failing page k = 3. -/
theorem claim_C8_transport_error_partial_witness :
    ((scrape_once PvW (fun _ => .error ()) 0 50).persisted =
        (scrape_once PvW (fun _ => .error ()) 0 2).persisted ∧
      4 ∉ (scrape_once PvW (fun _ => .error ()) 0 50).fetched) ∧
    ((scrape_category PcW (fun _ => .error ()) 0).persisted =
        (catawikiGo PcW (fun _ => .error ()) 0 2 1 [] []).persisted ∧
      4 ∉ (scrape_category PcW (fun _ => .error ()) 0).fetched ∧
      (scrape_category PcW (fun _ => .error ()) 0).outcome = .error ()) := by
  have h := claim_C8_transport_error_partial PvW PcW
    (fun _ => .error ()) (fun _ => .error ()) 0 0 3 50
    (by norm_num) (by norm_num) (by norm_num)
    (by unfold PvW; rw [if_pos rfl]) (by unfold PcW; rw [if_pos rfl])
  refine ⟨⟨h.1.1, h.1.2⟩, h.2.1, h.2.2.1, h.2.2.2 ?_⟩
  intro i h1 h2
  refine ⟨[goodLot], goodLot, [], ?_, rfl⟩
  unfold PcW
  rw [if_neg (by omega)]

/-- C9: a failing price-reference search for one item only skips that item:
the per-item body yields no document, the other items of the same page are
processed exactly as if the failing item were absent, and the pages a
harvest attempts (and, for Catawiki, whether it propagates an error) do not
depend on the enrichment oracle at all. -/
theorem claim_C9_reference_error_skips_item :
    (∀ (ebay : String → Except Unit PriceBand) (now : Int) (raw : RawCard),
      ebay (pyTake (pyStrip raw.title) 200) = .error () →
      vintedProcessItem ebay now raw = none) ∧
    (∀ (ebay : String → Except Unit PriceBand) (now : Int) (row : RawLot),
      ebay (pyTake row.title 200) = .error () →
      catawikiProcessItem ebay now row = none) ∧
    (∀ (ebay : String → Except Unit PriceBand) (now : Int)
        (xs ys : List RawCard) (bad : RawCard),
      ebay (pyTake (pyStrip bad.title) 200) = .error () →
      (xs ++ bad :: ys).filterMap (vintedProcessItem ebay now) =
        xs.filterMap (vintedProcessItem ebay now)
          ++ ys.filterMap (vintedProcessItem ebay now)) ∧
    (∀ (ebay : String → Except Unit PriceBand) (now : Int)
        (xs ys : List RawLot) (bad : RawLot),
      ebay (pyTake bad.title 200) = .error () →
      (xs ++ bad :: ys).filterMap (catawikiProcessItem ebay now) =
        xs.filterMap (catawikiProcessItem ebay now)
          ++ ys.filterMap (catawikiProcessItem ebay now)) ∧
    (∀ (Pv : Nat → Except Unit (List RawCard))
        (e1 e2 : String → Except Unit PriceBand) (n1 n2 : Int) (m : Nat),
      (scrape_once Pv e1 n1 m).fetched = (scrape_once Pv e2 n2 m).fetched) ∧
    (∀ (Pc : Nat → Except Unit (List RawLot))
        (e1 e2 : String → Except Unit PriceBand) (n1 n2 : Int),
      (scrape_category Pc e1 n1).fetched = (scrape_category Pc e2 n2).fetched ∧
      (scrape_category Pc e1 n1).outcome = (scrape_category Pc e2 n2).outcome) := by
  have hv : ∀ (ebay : String → Except Unit PriceBand) (now : Int) (raw : RawCard),
      ebay (pyTake (pyStrip raw.title) 200) = .error () →
      vintedProcessItem ebay now raw = none := by
    intro ebay now raw hb
    unfold vintedProcessItem
    by_cases htit : title_has_year (pyStrip raw.title) = false
    · simp [htit]
    · rcases hid : (match raw.id with
        | some i => if i = 0 then raw.urlItemsId else some i
        | none => raw.urlItemsId) with _ | item_id
      · simp [htit, hid]
      · simp [htit, hid, hb]
  have hc : ∀ (ebay : String → Except Unit PriceBand) (now : Int) (row : RawLot),
      ebay (pyTake row.title 200) = .error () →
      catawikiProcessItem ebay now row = none := by
    intro ebay now row hb
    unfold catawikiProcessItem
    by_cases htit : catawiki_title_has_year row.title = false
    · simp [htit]
    · rcases hid : row.lotId with _ | lot_id
      · simp [htit, hid]
      · simp [htit, hid, hb]
  refine ⟨hv, hc, ?_, ?_, ?_, ?_⟩
  · intro ebay now xs ys bad hb
    rw [List.filterMap_append, List.filterMap_cons, hv ebay now bad hb]
  · intro ebay now xs ys bad hb
    rw [List.filterMap_append, List.filterMap_cons, hc ebay now bad hb]
  · intro Pv e1 e2 n1 n2 m
    exact vintedGo_fetched_indep Pv e1 e2 n1 n2 m 1 [] [] []
  · intro Pc e1 e2 n1 n2
    exact catawikiGo_indep Pc e1 e2 n1 n2 50 1 [] [] []

/-- Witness for C9: an always-failing enrichment oracle skips the concrete
item and leaves the concrete page walk\x27s structure unchanged. -/
theorem claim_C9_reference_error_skips_item_witness :
    vintedProcessItem (fun _ => .error ()) 0 rawCardW = none ∧
    catawikiProcessItem (fun _ => .error ()) 0 rawLotW = none ∧
    ([rawCardW] ++ rawCardW :: []).filterMap
        (vintedProcessItem (fun _ => .error ()) 0) =
      [rawCardW].filterMap (vintedProcessItem (fun _ => .error ()) 0)
        ++ ([] : List RawCard).filterMap (vintedProcessItem (fun _ => .error ()) 0) ∧
    (scrape_once PvW (fun _ => .error ()) 0 50).fetched =
      (scrape_once PvW (fun _ => .ok emptyPriceBand) 7 50).fetched ∧
    (scrape_category PcW (fun _ => .error ()) 0).outcome =
      (scrape_category PcW (fun _ => .ok emptyPriceBand) 7).outcome :=
  ⟨claim_C9_reference_error_skips_item.1 (fun _ => .error ()) 0 rawCardW rfl,
   claim_C9_reference_error_skips_item.2.1 (fun _ => .error ()) 0 rawLotW rfl,
   claim_C9_reference_error_skips_item.2.2.1 (fun _ => .error ()) 0
     [rawCardW] [] rawCardW rfl,
   claim_C9_reference_error_skips_item.2.2.2.2.1 PvW
     (fun _ => .error ()) (fun _ => .ok emptyPriceBand) 0 7 50,
   (claim_C9_reference_error_skips_item.2.2.2.2.2 PcW
     (fun _ => .error ()) (fun _ => .ok emptyPriceBand) 0 7).2⟩

/-! ## Cycle Scheduler

`run_both_scrapers.py`.  `get_ebay_browse_remaining` (the quota
collaborator) and `save_vinted_last_update` / `save_catawiki_last_update`
(the CycleMarker writes) are referenced there but live outside the harvester
files; the quota value is therefore an input and the marker writes and
harvest invocations are recorded as opaque events in the order the script
performs them.  The `ok` flag on a run event records whether the harvest
raised (`run_cycle` catches either way and proceeds). -/

inductive SchedulerEvent
  | quotaCheck (remaining : Int)
  | saveVintedLastUpdate
  | runVinted (ok : Bool)
  | saveCatawikiLastUpdate
  | runCatawiki (ok : Bool)
  | sleepSeconds (n : Nat)
deriving DecidableEq

def SLEEP_SECONDS : Nat := 3 * 60 * 60

/-- `run_cycle` (lines 28-57): check the quota once; if `remaining <= 0`
return at once (no marker write, no harvest); otherwise write the Vinted
marker, run Vinted (exceptions caught), write the Catawiki marker, run
Catawiki (exceptions caught). -/
def run_cycle (remaining : Int) (vintedOk catawikiOk : Bool) :
    List SchedulerEvent :=
  if remaining ≤ 0 then [.quotaCheck remaining]
  else [.quotaCheck remaining, .saveVintedLastUpdate, .runVinted vintedOk,
        .saveCatawikiLastUpdate, .runCatawiki catawikiOk]

/-- One iteration of `main`\x27s infinite loop (lines 59-64): `run_cycle`
followed by the fixed 3-hour sleep, then the loop repeats. -/
def mainIteration (remaining : Int) (vintedOk catawikiOk : Bool) :
    List SchedulerEvent :=
  run_cycle remaining vintedOk catawikiOk ++ [.sleepSeconds SLEEP_SECONDS]

/-- C1: when the quota check reports `remaining <= 0`, the cycle consists of
the quota check followed by the full 3-hour sleep only: no CycleMarker is
written for either source and neither harvest pipeline is invoked before the
next check. -/
theorem claim_C1_quota_gate (remaining : Int) (vOk cOk : Bool)
    (h : remaining ≤ 0) :
    mainIteration remaining vOk cOk =
      [.quotaCheck remaining, .sleepSeconds (3 * 60 * 60)] ∧
    SchedulerEvent.saveVintedLastUpdate ∉ mainIteration remaining vOk cOk ∧
    SchedulerEvent.saveCatawikiLastUpdate ∉ mainIteration remaining vOk cOk ∧
    (∀ b, SchedulerEvent.runVinted b ∉ mainIteration remaining vOk cOk) ∧
    (∀ b, SchedulerEvent.runCatawiki b ∉ mainIteration remaining vOk cOk) := by
  have he : mainIteration remaining vOk cOk =
      [.quotaCheck remaining, .sleepSeconds SLEEP_SECONDS] := by
    unfold mainIteration run_cycle
    rw [if_pos h]
    rfl
  refine ⟨he, ?_, ?_, ?_, ?_⟩
  · simp [he]
  · simp [he]
  · intro b; simp [he]
  · intro b; simp [he]

/-- Witness for C1 at `remaining = 0`. -/
theorem claim_C1_quota_gate_witness :
    mainIteration 0 true true =
      [.quotaCheck 0, .sleepSeconds (3 * 60 * 60)] ∧
    SchedulerEvent.saveVintedLastUpdate ∉ mainIteration 0 true true ∧
    SchedulerEvent.saveCatawikiLastUpdate ∉ mainIteration 0 true true ∧
    (∀ b, SchedulerEvent.runVinted b ∉ mainIteration 0 true true) ∧
    (∀ b, SchedulerEvent.runCatawiki b ∉ mainIteration 0 true true) :=
  claim_C1_quota_gate 0 true true (by norm_num)

/-- Witness for C10 on the spec\x27s example response. -/
theorem claim_C10_priceband_invariants_witness :
    ((search_ebay_current_listings exampleResponse "sport card").listings = [] ↔
      (search_ebay_current_listings exampleResponse "sport card").minPrice = none) ∧
    ((search_ebay_current_listings exampleResponse "sport card").currency =
      (search_ebay_current_listings exampleResponse "sport card").listings.head?.map
        (fun l => l.currency)) :=
  ⟨(claim_C10_priceband_invariants exampleResponse "sport card" _ rfl).1,
   (claim_C10_priceband_invariants exampleResponse "sport card" _ rfl).2.2.2.2.2.1⟩

end SportCard
